import Mathlib

/-!
Verification development for the OpenVST3 host runtime.

The host library (crate openvst3-host) drives a dynamically loaded plugin
binary through an FFI dispatch surface (crate openvst3-sys).  We embed the
host-side Rust code as pure Lean functions.  The plugin side of every FFI
call is opaque native code; we model it as a record of pure functions
(structure `Sys` below), one field per `sys::v3_*` dispatch entry the host
calls: the field's result models the returned status code together with any
values the callee writes through its out-parameters.  Host functions that
issue FFI calls whose ordering matters additionally return a trace, the
list of calls they made, so that call-ordering and call-suppression
properties can be stated.

Machine integers: every status code and count in the code is an `i32` and
every value flowing through them stays far below `2^31`, so they are
modelled as `Int` (no wrap-around is reachable in the modelled paths).
Speaker arrangements are opaque `u64` bitmasks, modelled as `UInt64`.
Raw pointers are modelled as `Nat`, with `0` standing for the null pointer.
-/

/-! ### Constants from openvst3-sys -/

def MEDIA_TYPE_AUDIO : Int := 0
def MEDIA_TYPE_EVENT : Int := 1
def BUS_DIRECTION_INPUT : Int := 0
def BUS_DIRECTION_OUTPUT : Int := 1
def BUS_TYPE_MAIN : Int := 0
def BUS_TYPE_AUX : Int := 1

/-! ### Lossy UTF-8 decoding

`LoadedFactory::classes` and `BusInfo::from_raw` convert fixed-size byte
fields to display strings with `String::from_utf8_lossy`, which is total:
each maximal invalid subsequence becomes U+FFFD and decoding never fails.
We model that conversion faithfully, together with a strict validity test
used to state claims about "invalid encoding" inputs. -/

/-- The Unicode replacement character U+FFFD emitted by lossy decoding. -/
def replacementChar : Char := Char.ofNat 0xFFFD

/-- Is `b` a UTF-8 continuation byte (`10xxxxxx`)? -/
def isUtf8Cont (b : UInt8) : Bool := 0x80 ≤ b && b < 0xC0

/-- Range check for the first continuation byte of a three-byte sequence
(rules out overlong `E0 80..9F` and surrogate `ED A0..BF` forms). -/
def utf8Cont2Ok (b b1 : UInt8) : Bool :=
  isUtf8Cont b1 && !(b == 0xE0 && b1 < 0xA0) && !(b == 0xED && 0xA0 ≤ b1)

/-- Range check for the first continuation byte of a four-byte sequence
(rules out overlong `F0 80..8F` and out-of-range `F4 90..BF` forms). -/
def utf8Cont3Ok (b b1 : UInt8) : Bool :=
  isUtf8Cont b1 && !(b == 0xF0 && b1 < 0x90) && !(b == 0xF4 && 0x90 ≤ b1)

/-- Decode one UTF-8 sequence whose lead byte is `b` and whose candidate
continuation bytes are the front of `rest`.  Returns the decoded scalar (or
U+FFFD for a maximal invalid subpart) and how many bytes of `rest` were
consumed. -/
def utf8Step (b : UInt8) (rest : List UInt8) : Char × Nat :=
  if b < 0x80 then (Char.ofNat b.toNat, 0)
  else if b < 0xC2 then (replacementChar, 0)
  else if b < 0xE0 then
    match rest with
    | b1 :: _ =>
      if isUtf8Cont b1 then
        (Char.ofNat ((b.toNat - 0xC0) * 0x40 + (b1.toNat - 0x80)), 1)
      else (replacementChar, 0)
    | [] => (replacementChar, 0)
  else if b < 0xF0 then
    match rest with
    | b1 :: b2 :: _ =>
      if utf8Cont2Ok b b1 then
        if isUtf8Cont b2 then
          (Char.ofNat ((b.toNat - 0xE0) * 0x1000 + (b1.toNat - 0x80) * 0x40
            + (b2.toNat - 0x80)), 2)
        else (replacementChar, 1)
      else (replacementChar, 0)
    | [b1] => if utf8Cont2Ok b b1 then (replacementChar, 1) else (replacementChar, 0)
    | [] => (replacementChar, 0)
  else if b < 0xF5 then
    match rest with
    | b1 :: b2 :: b3 :: _ =>
      if utf8Cont3Ok b b1 then
        if isUtf8Cont b2 then
          if isUtf8Cont b3 then
            (Char.ofNat ((b.toNat - 0xF0) * 0x40000 + (b1.toNat - 0x80) * 0x1000
              + (b2.toNat - 0x80) * 0x40 + (b3.toNat - 0x80)), 3)
          else (replacementChar, 2)
        else (replacementChar, 1)
      else (replacementChar, 0)
    | [b1, b2] =>
      if utf8Cont3Ok b b1 then
        if isUtf8Cont b2 then (replacementChar, 2) else (replacementChar, 1)
      else (replacementChar, 0)
    | [b1] => if utf8Cont3Ok b b1 then (replacementChar, 1) else (replacementChar, 0)
    | [] => (replacementChar, 0)
  else (replacementChar, 0)

/-- Worker for lossy decoding, structurally recursive on a fuel bound on
the number of bytes left (each step consumes the lead byte and possibly
more, so `fuel = length` always suffices). -/
def utf8LossyCharsAux : Nat → List UInt8 → List Char
  | 0, _ => []
  | _ + 1, [] => []
  | fuel + 1, b :: rest =>
    let s := utf8Step b rest
    s.1 :: utf8LossyCharsAux fuel (rest.drop s.2)

/-- Total (lossy) UTF-8 decoding of a byte sequence to characters. -/
def utf8LossyChars (bs : List UInt8) : List Char := utf8LossyCharsAux bs.length bs

/-- Models Rust `String::from_utf8_lossy(bytes).to_string()`: a total
conversion that never fails, replacing invalid sequences with U+FFFD. -/
def fromUtf8Lossy (bs : List UInt8) : String := String.mk (utf8LossyChars bs)

/-- Strict validity of one UTF-8 sequence: number of continuation bytes if
the sequence at the front is well-formed, `none` otherwise. -/
def utf8ValidStep (b : UInt8) (rest : List UInt8) : Option Nat :=
  if b < 0x80 then some 0
  else if b < 0xC2 then none
  else if b < 0xE0 then
    match rest with
    | b1 :: _ => if isUtf8Cont b1 then some 1 else none
    | [] => none
  else if b < 0xF0 then
    match rest with
    | b1 :: b2 :: _ => if utf8Cont2Ok b b1 && isUtf8Cont b2 then some 2 else none
    | _ => none
  else if b < 0xF5 then
    match rest with
    | b1 :: b2 :: b3 :: _ =>
      if utf8Cont3Ok b b1 && isUtf8Cont b2 && isUtf8Cont b3 then some 3 else none
    | _ => none
  else none

/-- Worker for strict validity, structurally recursive on a fuel bound on
the number of bytes left. -/
def utf8IsValidAux : Nat → List UInt8 → Bool
  | 0, l => l.isEmpty
  | _ + 1, [] => true
  | fuel + 1, b :: rest =>
    match utf8ValidStep b rest with
    | some k => utf8IsValidAux fuel (rest.drop k)
    | none => false

/-- Is `bs` well-formed UTF-8?  (`String::from_utf8` would succeed.) -/
def utf8IsValid (bs : List UInt8) : Bool := utf8IsValidAux bs.length bs

/-- The prefix of a byte field before its first NUL byte (`split(|&b| b == 0)
.next()` on the `name`/`category` arrays, and the `position`-based
truncation used for bus names — both yield the bytes before the first 0). -/
def takeUntilNul : List UInt8 → List UInt8
  | [] => []
  | b :: rest => if b = 0 then [] else b :: takeUntilNul rest

/-! ### Raw FFI records (openvst3-sys structs) -/

/-- `sys::v3_class_info`: fixed-size byte fields (`category: [u8; 64]`,
`name: [u8; 128]`, `cid: [u8; 16]`), modelled as byte lists. -/
structure v3_class_info where
  category : List UInt8
  name : List UInt8
  cid : List UInt8
deriving DecidableEq, Repr

/-- `sys::v3_bus_info`. -/
structure v3_bus_info where
  media_type : Int
  direction : Int
  channel_count : Int
  bus_type : Int
  flags : UInt32
  name : List UInt8
deriving DecidableEq, Repr

/-! ### The FFI oracle

One field per `sys::v3_*` dispatch function the host library calls.  A
field returning `Int × τ` models a status code plus the data the callee
writes through an out-parameter; `get_bus_arrangements` writes into two
caller-allocated arrays, modelled by a status function plus one content
function per array (the host fixes the array lengths, the callee only
fills the cells). -/
structure Sys where
  factory_class_count : Int
  factory_class_info : Int → Int × v3_class_info
  factory_create_audio_processor : List UInt8 → Int × Nat × Nat
  component_get_bus_count : Int → Int → Int
  component_get_bus_info : Int → Int → Int → Int × v3_bus_info
  component_activate_bus : Int → Int → Int → Int → Int
  component_set_active : Int → Int
  component_terminate : Int
  audio_processor_setup : Float → Int → Int → Int → Int
  audio_processor_set_active : Int → Int
  audio_processor_set_processing : Int → Int
  audio_processor_get_bus_arrangements_rc : Nat → Nat → Int
  audio_processor_arr_in : Nat → Nat → Nat → UInt64
  audio_processor_arr_out : Nat → Nat → Nat → UInt64
  audio_processor_set_bus_arrangements : List UInt64 → List UInt64 → Int
  audio_processor_process_f32 : Int → Int → Int → Int
  release_proc : Int
  release_comp : Int

/-! ### Host-side data types (openvst3-host) -/

/-- Errors returned by the host library.  The Rust code uses `anyhow`
format-string errors; each constructor carries exactly the data the
corresponding message interpolates (in particular the raw status code). -/
inductive HostError where
  | classCountFailed (rc : Int)
  | createFailed (rc : Int)
  | notActive
  | inputBufferTooSmall
  | outputBufferTooSmall
  | processFailed (rc : Int)
  | setupFailed (rc : Int)
  | setActiveFailed (rcComp rcProc rcProcessing : Int)
  | getBusCountFailed (rc : Int)
  | getBusInfoFailed (rc : Int)
  | activateBusFailed (rc : Int)
  | getArrangementsFailed (rc : Int)
  | setArrangementsFailed (rc : Int)
  | invalidBundle (frames maxBlock : Nat)
  | terr (rc : Int)
deriving DecidableEq, Repr

/-- One recorded FFI call (for host operations whose call ordering or
suppression the claims talk about). -/
inductive HostCall where
  | procSetProcessing (state : Int)
  | procSetActive (state : Int)
  | compSetActive (state : Int)
  | compTerminate
  | releaseProc
  | releaseComp
  | activateBus (media direction index state : Int)
  | setArrangements (ins outs : List UInt64)
  | processF32 (inCh outCh numSamples : Int)
deriving DecidableEq, Repr

/-- Decoded class descriptor (`host::ClassInfo`). -/
structure ClassInfo where
  category : String
  name : String
  cid : List UInt8
deriving DecidableEq, Repr

/-- `host::MediaType`. -/
inductive MediaType where
  | audio
  | event
deriving DecidableEq, Repr

def MediaType.to_raw : MediaType → Int
  | .audio => MEDIA_TYPE_AUDIO
  | .event => MEDIA_TYPE_EVENT

def MediaType.from_raw (raw : Int) : Option MediaType :=
  if raw = MEDIA_TYPE_AUDIO then some .audio
  else if raw = MEDIA_TYPE_EVENT then some .event
  else none

/-- `host::BusDirection`. -/
inductive BusDirection where
  | input
  | output
deriving DecidableEq, Repr

def BusDirection.to_raw : BusDirection → Int
  | .input => BUS_DIRECTION_INPUT
  | .output => BUS_DIRECTION_OUTPUT

def BusDirection.from_raw (raw : Int) : Option BusDirection :=
  if raw = BUS_DIRECTION_INPUT then some .input
  else if raw = BUS_DIRECTION_OUTPUT then some .output
  else none

/-- `host::BusType`. -/
inductive BusType where
  | main
  | aux
  | other (raw : Int)
deriving DecidableEq, Repr

def BusType.from_raw (raw : Int) : BusType :=
  if raw = BUS_TYPE_MAIN then .main
  else if raw = BUS_TYPE_AUX then .aux
  else .other raw

/-- `host::BusInfo` (flags kept raw: `BusFlags::from_bits_retain` keeps
every bit). -/
structure BusInfo where
  media_type : MediaType
  direction : BusDirection
  channel_count : Int
  bus_type : BusType
  flags : UInt32
  name : String
deriving DecidableEq, Repr

/-- `BusInfo::from_raw`: NUL-truncate and lossily decode the name, decode
the enums with their documented defaults. -/
def BusInfo.from_raw (raw : v3_bus_info) : BusInfo :=
  { media_type := (MediaType.from_raw raw.media_type).getD .audio
    direction := (BusDirection.from_raw raw.direction).getD .input
    channel_count := raw.channel_count
    bus_type := BusType.from_raw raw.bus_type
    flags := raw.flags
    name := fromUtf8Lossy (takeUntilNul raw.name) }

/-- Host-side state of `host::AudioProcessor`: the two capability pointers
and the `active` flag.  (This is the entire host-side mutable state of the
processor; every other piece of configuration lives inside the plugin.) -/
structure AudioProcessor where
  proc : Nat
  comp : Nat
  active : Bool
deriving DecidableEq, Repr

/-! ### LoadedFactory operations -/

/-- Decode one `v3_class_info` record into a `ClassInfo` exactly as the
body of the `rc == 0` branch of `LoadedFactory::classes` does. -/
def decodeClassInfo (c : v3_class_info) : ClassInfo :=
  { category := fromUtf8Lossy (takeUntilNul c.category)
    name := fromUtf8Lossy (takeUntilNul c.name)
    cid := c.cid }

/-- The `for i in 0..n` loop of `LoadedFactory::classes`: `i` is the next
index, `fuel` the number of indices still to visit.  An index whose
`v3_factory_class_info` call returns non-zero contributes nothing; every
other index contributes its decoded descriptor. -/
def classesLoop (s : Sys) (i : Nat) : Nat → List ClassInfo
  | 0 => []
  | fuel + 1 =>
    let r := s.factory_class_info (Int.ofNat i)
    if r.1 = 0 then decodeClassInfo r.2 :: classesLoop s (i + 1) fuel
    else classesLoop s (i + 1) fuel

/-- `LoadedFactory::classes`. -/
def LoadedFactory.classes (s : Sys) : Except HostError (List ClassInfo) :=
  let n := s.factory_class_count
  if n < 0 then .error (.classCountFailed n)
  else .ok (classesLoop s 0 n.toNat)

/-- `LoadedFactory::create_audio_processor`: the dispatch returns a status
and writes two pointers (initialised to null by the host). -/
def LoadedFactory.create_audio_processor (s : Sys) (cid : List UInt8) :
    Except HostError AudioProcessor :=
  let r := s.factory_create_audio_processor cid
  if r.1 ≠ 0 ∨ r.2.1 = 0 ∨ r.2.2 = 0 then .error (.createFailed r.1)
  else .ok { proc := r.2.1, comp := r.2.2, active := false }

/-! ### AudioProcessor operations -/

/-- `AudioProcessor::set_active`: three dispatch calls (in opposite orders
for activation and deactivation); the `active` flag is updated only after
all three succeeded. -/
def AudioProcessor.set_active (s : Sys) (st : AudioProcessor) (flag : Bool) :
    Except HostError Unit × AudioProcessor :=
  if flag then
    let rc_comp := s.component_set_active 1
    let rc_proc := s.audio_processor_set_active 1
    let rc_processing := s.audio_processor_set_processing 1
    if rc_comp ≠ 0 ∨ rc_proc ≠ 0 ∨ rc_processing ≠ 0 then
      (.error (.setActiveFailed rc_comp rc_proc rc_processing), st)
    else (.ok (), { st with active := flag })
  else
    let rc_processing := s.audio_processor_set_processing 0
    let rc_proc := s.audio_processor_set_active 0
    let rc_comp := s.component_set_active 0
    if rc_comp ≠ 0 ∨ rc_proc ≠ 0 ∨ rc_processing ≠ 0 then
      (.error (.setActiveFailed rc_comp rc_proc rc_processing), st)
    else (.ok (), { st with active := flag })

/-- `AudioProcessor::process_f32`.  Channel buffers are modelled by their
sample lists (only lengths are inspected host-side; the samples cross the
FFI boundary as opaque pointers).  Returns the result, the host state
after the call, and the trace of process dispatch calls made. -/
def AudioProcessor.process_f32 (s : Sys) (st : AudioProcessor)
    (inputs : List (List Float)) (outputs : List (List Float)) (nframes : Nat) :
    Except HostError Unit × AudioProcessor × List HostCall :=
  if st.active = false then (.error .notActive, st, [])
  else if inputs.any (fun ch => decide (ch.length < nframes)) then
    (.error .inputBufferTooSmall, st, [])
  else if outputs.any (fun ch => decide (ch.length < nframes)) then
    (.error .outputBufferTooSmall, st, [])
  else
    let call := HostCall.processF32 (Int.ofNat inputs.length)
      (Int.ofNat outputs.length) (Int.ofNat nframes)
    let rc := s.audio_processor_process_f32 (Int.ofNat inputs.length)
      (Int.ofNat outputs.length) (Int.ofNat nframes)
    if rc ≠ 0 then (.error (.processFailed rc), st, [call])
    else (.ok (), st, [call])

/-- `AudioProcessor::bus_count`. -/
def AudioProcessor.bus_count (s : Sys) (media : MediaType) (direction : BusDirection) :
    Except HostError Int :=
  let count := s.component_get_bus_count media.to_raw direction.to_raw
  if count < 0 then .error (.getBusCountFailed count) else .ok count

/-- `AudioProcessor::bus_info`. -/
def AudioProcessor.bus_info (s : Sys) (media : MediaType) (direction : BusDirection)
    (index : Int) : Except HostError BusInfo :=
  let r := s.component_get_bus_info media.to_raw direction.to_raw index
  if r.1 ≠ 0 then .error (.getBusInfoFailed r.1) else .ok (BusInfo.from_raw r.2)

/-- `AudioProcessor::activate_bus` (traced). -/
def AudioProcessor.activate_bus (s : Sys) (media : MediaType) (direction : BusDirection)
    (index : Int) (state : Bool) : Except HostError Unit × List HostCall :=
  let raw_state : Int := if state then 1 else 0
  let rc := s.component_activate_bus media.to_raw direction.to_raw index raw_state
  let call := HostCall.activateBus media.to_raw direction.to_raw index raw_state
  if rc ≠ 0 then (.error (.activateBusFailed rc), [call])
  else (.ok (), [call])

/-- The `for idx in 0..count` loop of
`AudioProcessor::activate_default_audio_buses` for one `(media,
direction, host_channels)` configuration: `i` is the next bus index,
`fuel` the number of indices still to visit.  `bus_info` and
`activate_bus` failures propagate (the Rust loop uses `?` on both). -/
def activateBusesLoop (s : Sys) (media : MediaType) (direction : BusDirection)
    (host_channels : Int) (i : Nat) : Nat → Except HostError Unit × List HostCall
  | 0 => (.ok (), [])
  | fuel + 1 =>
    match AudioProcessor.bus_info s media direction (Int.ofNat i) with
    | .error e => (.error e, [])
    | .ok info =>
      let should_activate := 0 < host_channels ∧ 0 < info.channel_count
      let r := AudioProcessor.activate_bus s media direction (Int.ofNat i)
        (decide should_activate)
      match r.1 with
      | .error e => (.error e, r.2)
      | .ok _ =>
        let rest := activateBusesLoop s media direction host_channels (i + 1) fuel
        (rest.1, r.2 ++ rest.2)

/-- `AudioProcessor::activate_default_audio_buses`: the two configurations
`(Audio, Input, in_ch)` and `(Audio, Output, out_ch)`, in that order. -/
def AudioProcessor.activate_default_audio_buses (s : Sys) (in_ch out_ch : Int) :
    Except HostError Unit × List HostCall :=
  match AudioProcessor.bus_count s .audio .input with
  | .error e => (.error e, [])
  | .ok cIn =>
    let rIn := activateBusesLoop s .audio .input in_ch 0 cIn.toNat
    match rIn.1 with
    | .error e => (.error e, rIn.2)
    | .ok _ =>
      match AudioProcessor.bus_count s .audio .output with
      | .error e => (.error e, rIn.2)
      | .ok cOut =>
        let rOut := activateBusesLoop s .audio .output out_ch 0 cOut.toNat
        (rOut.1, rIn.2 ++ rOut.2)

/-- `AudioProcessor::get_bus_arrangements`: allocates one zeroed slot per
audio bus in each direction and lets the callee fill them; the returned
lists always have exactly the bus-count lengths. -/
def AudioProcessor.get_bus_arrangements (s : Sys) :
    Except HostError (List UInt64 × List UInt64) :=
  match AudioProcessor.bus_count s .audio .input with
  | .error e => .error e
  | .ok cIn =>
    match AudioProcessor.bus_count s .audio .output with
    | .error e => .error e
    | .ok cOut =>
      let nIn := (max cIn 0).toNat
      let nOut := (max cOut 0).toNat
      let rc := s.audio_processor_get_bus_arrangements_rc nIn nOut
      if rc ≠ 0 then .error (.getArrangementsFailed rc)
      else .ok ((List.range nIn).map (s.audio_processor_arr_in nIn nOut),
                (List.range nOut).map (s.audio_processor_arr_out nIn nOut))

/-- `AudioProcessor::set_bus_arrangements` (traced): one dispatch call;
an empty list on a side is passed as count 0 with a null pointer. -/
def AudioProcessor.set_bus_arrangements (s : Sys) (ins outs : List UInt64) :
    Except HostError Unit × List HostCall :=
  let rc := s.audio_processor_set_bus_arrangements ins outs
  let call := HostCall.setArrangements ins outs
  if rc ≠ 0 then (.error (.setArrangementsFailed rc), [call])
  else (.ok (), [call])

/-- `AudioProcessor::reapply_default_arrangements`: read the current
arrangements and re-apply them verbatim, unless both lists are empty. -/
def AudioProcessor.reapply_default_arrangements (s : Sys) :
    Except HostError Unit × List HostCall :=
  match AudioProcessor.get_bus_arrangements s with
  | .error e => (.error e, [])
  | .ok arrs =>
    if arrs.1.isEmpty = false ∨ arrs.2.isEmpty = false then
      AudioProcessor.set_bus_arrangements s arrs.1 arrs.2
    else (.ok (), [])

/-- `AudioProcessor::setup`: the setup dispatch, then
`reapply_default_arrangements`, then `activate_default_audio_buses`,
each failure propagating (`?`). -/
def AudioProcessor.setup (s : Sys) (sr : Float) (max_block in_ch out_ch : Int) :
    Except HostError Unit × List HostCall :=
  let rc := s.audio_processor_setup sr max_block in_ch out_ch
  if rc ≠ 0 then (.error (.setupFailed rc), [])
  else
    match AudioProcessor.reapply_default_arrangements s with
    | (.error e, tr) => (.error e, tr)
    | (.ok _, tr) =>
      let r := AudioProcessor.activate_default_audio_buses s in_ch out_ch
      (r.1, tr ++ r.2)

/-- `impl Drop for AudioProcessor`: six FFI calls whose status codes are
all discarded (`let _ = ...;`); nothing is returned to the caller.  The
result is the trace of teardown calls made. -/
def AudioProcessor.drop (s : Sys) : List HostCall :=
  let c1 : Int × List HostCall := (s.audio_processor_set_processing 0, [.procSetProcessing 0])
  let c2 : Int × List HostCall := (s.audio_processor_set_active 0, [.procSetActive 0])
  let c3 : Int × List HostCall := (s.component_set_active 0, [.compSetActive 0])
  let c4 : Int × List HostCall := (s.component_terminate, [.compTerminate])
  let c5 : Int × List HostCall := (s.release_proc, [.releaseProc])
  let c6 : Int × List HostCall := (s.release_comp, [.releaseComp])
  c1.2 ++ c2.2 ++ c3.2 ++ c4.2 ++ c5.2 ++ c6.2

/-! ### realtime-host-cli: CallbackState32 -/

/-- The contents of the `ProcessData32` record (and the embedded output
`AudioBusBuffers32`) as the plugin's `process_32f` entry observes them on
one call.  Pointer fields that are always null in this driver
(`inputs`, parameter-change and event lists) are omitted; the channel
buffer pointers are opaque across the boundary. -/
structure ProcessData32Call where
  num_inputs : Int
  num_outputs : Int
  out_num_channels : Int
  out_silence_flags : UInt64
  num_samples : Int
deriving DecidableEq, Repr

/-- The plugin side of the `openvst3_abi::IAudioProcessor::process_32f`
dispatch used by the realtime driver. -/
structure IAudioProcessorDispatch where
  process_32f : ProcessData32Call → Int

/-- Host state of `CallbackState32` relevant to a `process` call: the
channel count and the maximum block size.  The pre-allocated channel
buffers and pointer arrays only carry samples and are opaque to the
properties below. -/
structure CallbackState32 where
  channels : Nat
  max_frames : Nat
deriving DecidableEq, Repr

/-- `CallbackState32::process` for an interleaved output buffer of
`bufferLen` samples.  Returns the result and the trace of `process_32f`
dispatch calls.  The deinterleave copy after a successful call moves
samples only and is not modelled.  The Rust code divides by
`self.channels`, so its behaviour requires `channels > 0` (stated as a
hypothesis where used). -/
def CallbackState32.process (st : CallbackState32) (d : IAudioProcessorDispatch)
    (bufferLen : Nat) : Except HostError Unit × List ProcessData32Call :=
  let frames := bufferLen / st.channels
  if frames > st.max_frames then (.error (.invalidBundle frames st.max_frames), [])
  else
    let data : ProcessData32Call :=
      { num_inputs := 0
        num_outputs := 1
        out_num_channels := Int.ofNat st.channels
        out_silence_flags := 0
        num_samples := Int.ofNat frames }
    let tr := d.process_32f data
    if tr ≠ 0 then (.error (.terr tr), [data])
    else (.ok (), [data])

/-! ### Specification-side descriptions

These definitions restate, in the spec's vocabulary, what the listing and
the default bus activation are supposed to produce; the theorems below
relate the embedded host functions to them. -/

/-- Listing policy: one decoded descriptor per index in `0..count` whose
class-info accessor reports success, in ascending index order.  (No
condition on the name or category bytes: their decoding is lossy and
total.) -/
def classesSpec (s : Sys) : List ClassInfo :=
  (List.range s.factory_class_count.toNat).filterMap (fun i =>
    let r := s.factory_class_info (Int.ofNat i)
    if r.1 = 0 then some (decodeClassInfo r.2) else none)

/-- The activation call the default routine is supposed to issue for bus
`i` of one direction: activate exactly when the host budget for the
direction and the bus's own channel count are both positive. -/
def expectedActivateCall (s : Sys) (media : MediaType) (direction : BusDirection)
    (host_channels : Int) (i : Nat) : HostCall :=
  let info := BusInfo.from_raw
    (s.component_get_bus_info media.to_raw direction.to_raw (Int.ofNat i)).2
  let raw_state : Int :=
    if 0 < host_channels ∧ 0 < info.channel_count then 1 else 0
  HostCall.activateBus media.to_raw direction.to_raw (Int.ofNat i) raw_state

/-- The full activation trace the default routine is supposed to produce:
one call per reported audio bus, inputs first, ascending indices. -/
def expectedActivateTrace (s : Sys) (in_ch out_ch : Int) : List HostCall :=
  ((List.range (s.component_get_bus_count MEDIA_TYPE_AUDIO BUS_DIRECTION_INPUT).toNat).map
    (expectedActivateCall s .audio .input in_ch)) ++
  ((List.range (s.component_get_bus_count MEDIA_TYPE_AUDIO BUS_DIRECTION_OUTPUT).toNat).map
    (expectedActivateCall s .audio .output out_ch))

/-- The status the bus-info query reports for bus `i` of one direction. -/
def busInfoStatus (s : Sys) (media : MediaType) (direction : BusDirection)
    (i : Nat) : Int :=
  (s.component_get_bus_info media.to_raw direction.to_raw (Int.ofNat i)).1

/-- The status the activate-bus call reports for bus `i` of one direction
when passed the state the default routine computes for it. -/
def activateStatus (s : Sys) (media : MediaType) (direction : BusDirection)
    (host_channels : Int) (i : Nat) : Int :=
  s.component_activate_bus media.to_raw direction.to_raw (Int.ofNat i)
    (if 0 < host_channels ∧ 0 < (BusInfo.from_raw
        (s.component_get_bus_info media.to_raw direction.to_raw
          (Int.ofNat i)).2).channel_count
     then 1 else 0)

/-- Both per-bus dispatch calls for bus `i` of one direction succeed
during the default activation routine. -/
abbrev busStepOk (s : Sys) (media : MediaType) (direction : BusDirection)
    (host_channels : Int) (i : Nat) : Prop :=
  busInfoStatus s media direction i = 0 ∧
  activateStatus s media direction host_channels i = 0

/-- The error the default activation routine raises at the first failing
bus `j`: the raw bus-info status when that query fails, otherwise the raw
activate-call status. -/
def firstBusFailureError (s : Sys) (media : MediaType) (direction : BusDirection)
    (host_channels : Int) (j : Nat) : HostError :=
  if busInfoStatus s media direction j ≠ 0 then
    .getBusInfoFailed (busInfoStatus s media direction j)
  else
    .activateBusFailed (activateStatus s media direction host_channels j)

/-! ### Concrete instances used by witnesses and counterexamples -/

/-- An all-zero class-info record. -/
def emptyClassInfo : v3_class_info := { category := [], name := [], cid := [] }

/-- An all-zero bus-info record. -/
def emptyBusInfo : v3_bus_info :=
  { media_type := 0, direction := 0, channel_count := 0, bus_type := 0
    flags := 0, name := [] }

/-- A benign plugin: no classes, no buses, every dispatch call succeeds,
`create` hands back the non-null pointers 1 and 2. -/
def sysNull : Sys :=
  { factory_class_count := 0
    factory_class_info := fun _ => (-1, emptyClassInfo)
    factory_create_audio_processor := fun _ => (0, 1, 2)
    component_get_bus_count := fun _ _ => 0
    component_get_bus_info := fun _ _ _ => (0, emptyBusInfo)
    component_activate_bus := fun _ _ _ _ => 0
    component_set_active := fun _ => 0
    component_terminate := 0
    audio_processor_setup := fun _ _ _ _ => 0
    audio_processor_set_active := fun _ => 0
    audio_processor_set_processing := fun _ => 0
    audio_processor_get_bus_arrangements_rc := fun _ _ => 0
    audio_processor_arr_in := fun _ _ _ => 0
    audio_processor_arr_out := fun _ _ _ => 0
    audio_processor_set_bus_arrangements := fun _ _ => 0
    audio_processor_process_f32 := fun _ _ _ => 0
    release_proc := 0
    release_comp := 0 }

/-- Class record 0 of the three-class factory: valid ASCII name. -/
def classRec0 : v3_class_info :=
  { category := [0x41, 0x75, 0x64, 0x69, 0x6F, 0]
    name := [0x47, 0x61, 0x69, 0x6E, 0]
    cid := List.replicate 16 0 }

/-- Class record 1 of the three-class factory: its name bytes `[0xFF]` are
not well-formed UTF-8. -/
def classRec1 : v3_class_info :=
  { category := [0x41, 0x75, 0x64, 0x69, 0x6F, 0]
    name := [0xFF]
    cid := List.replicate 16 1 }

/-- Class record 2 of the three-class factory: valid ASCII name. -/
def classRec2 : v3_class_info :=
  { category := [0x41, 0x75, 0x64, 0x69, 0x6F, 0]
    name := [0x45, 0x63, 0x68, 0x6F, 0]
    cid := List.replicate 16 2 }

/-- A factory exposing 3 classes whose per-index accessor always succeeds;
index 1's name bytes contain invalid encoding. -/
def sysFactory3 : Sys :=
  { sysNull with
    factory_class_count := 3
    factory_class_info := fun i =>
      if i = 0 then (0, classRec0)
      else if i = 1 then (0, classRec1)
      else if i = 2 then (0, classRec2)
      else (-1, emptyClassInfo) }

/-- A factory whose class-count call reports the failure status `-2`. -/
def sysCountNeg : Sys := { sysNull with factory_class_count := -2 }

/-- An instance with one input bus and two output buses; output bus 1
reports zero channels, every other bus reports two. -/
def sysBuses : Sys :=
  { sysNull with
    component_get_bus_count := fun _ direction => if direction = 0 then 1 else 2
    component_get_bus_info := fun _ direction i =>
      (0, { emptyBusInfo with
              direction := direction
              channel_count := if direction = 1 ∧ i = 1 then 0 else 2 }) }

/-- An instance with one input bus whose bus-info query fails with `-3`
(used against the activateBuses step). -/
def sysBusInfoFail : Sys :=
  { sysNull with
    component_get_bus_count := fun _ direction => if direction = 0 then 1 else 0
    component_get_bus_info := fun _ _ _ => (-3, emptyBusInfo) }

/-- An instance with no input buses and one two-channel output bus whose
activate call fails with `-4` (used against the activateBuses step). -/
def sysActivateFail : Sys :=
  { sysNull with
    component_get_bus_count := fun _ direction => if direction = 0 then 0 else 1
    component_get_bus_info := fun _ _ _ =>
      (0, { emptyBusInfo with direction := 1, channel_count := 2 })
    component_activate_bus := fun _ _ _ _ => -4 }

/-- A factory whose create call reports success but leaves the processor
pointer null. -/
def sysCreateNullProc : Sys :=
  { sysNull with factory_create_audio_processor := fun _ => (0, 0, 2) }

/-- A processor state whose activation fully succeeded. -/
def apActive : AudioProcessor := { proc := 1, comp := 2, active := true }

/-- A processor state with no successful `set_active(true)`. -/
def apIdle : AudioProcessor := { proc := 1, comp := 2, active := false }

/-- A three-channel callback state with a 512-frame maximum block. -/
def cb3 : CallbackState32 := { channels := 3, max_frames := 512 }

/-- A plugin whose `process_32f` always succeeds. -/
def dispatchOk : IAudioProcessorDispatch := { process_32f := fun _ => 0 }

/-! ### Helper lemmas -/

/-- The class-listing loop visits the index interval `[i, i + fuel)` in
ascending order and keeps exactly the indices whose accessor succeeds. -/
theorem classesLoop_eq_filterMap (s : Sys) :
    ∀ fuel i, classesLoop s i fuel = (List.range' i fuel).filterMap (fun k =>
      let r := s.factory_class_info (Int.ofNat k)
      if r.1 = 0 then some (decodeClassInfo r.2) else none) := by
  intro fuel
  induction fuel with
  | zero => intro i; rfl
  | succ n ih =>
    intro i
    rw [List.range'_succ i n 1, List.filterMap_cons]
    by_cases h : (s.factory_class_info (Int.ofNat i)).1 = 0
    · simp only [classesLoop, if_pos h, ih (i + 1)]
    · simp only [classesLoop, if_neg h, ih (i + 1)]

/-- Closed form of `activate_bus`: one dispatch call is always recorded;
the result reflects its status. -/
theorem activate_bus_eq (s : Sys) (media : MediaType) (direction : BusDirection)
    (index : Int) (state : Bool) :
    AudioProcessor.activate_bus s media direction index state =
      (if s.component_activate_bus media.to_raw direction.to_raw index
            (if state then 1 else 0) = 0
       then .ok ()
       else .error (.activateBusFailed (s.component_activate_bus media.to_raw
              direction.to_raw index (if state then 1 else 0))),
       [HostCall.activateBus media.to_raw direction.to_raw index
         (if state then 1 else 0)]) := by
  unfold AudioProcessor.activate_bus
  by_cases h : s.component_activate_bus media.to_raw direction.to_raw index
      (if state then 1 else 0) = 0 <;> simp [h]

/-- A successful bus-info query returns the decoded record of the raw
dispatch result. -/
theorem bus_info_ok_inv (s : Sys) (media : MediaType) (direction : BusDirection)
    (index : Int) (info : BusInfo)
    (h : AudioProcessor.bus_info s media direction index = .ok info) :
    info = BusInfo.from_raw
      (s.component_get_bus_info media.to_raw direction.to_raw index).2 := by
  unfold AudioProcessor.bus_info at h
  by_cases hrc : (s.component_get_bus_info media.to_raw direction.to_raw index).1 ≠ 0
  · rw [if_pos hrc] at h
    exact Except.noConfusion h
  · rw [if_neg hrc] at h
    exact (Except.ok.inj h).symm

/-- When the per-direction activation loop succeeds, its trace is exactly
one activation call per index in ascending order, activating precisely the
buses with a positive host budget and a positive channel count. -/
theorem activateBusesLoop_ok_trace (s : Sys) (media : MediaType)
    (direction : BusDirection) (host_channels : Int) :
    ∀ fuel i,
      (activateBusesLoop s media direction host_channels i fuel).1 = .ok () →
      (activateBusesLoop s media direction host_channels i fuel).2 =
        (List.range' i fuel).map
          (expectedActivateCall s media direction host_channels) := by
  intro fuel
  induction fuel with
  | zero => intro i _; rfl
  | succ n ih =>
    intro i hok
    rw [List.range'_succ i n 1, List.map_cons]
    cases hbi : AudioProcessor.bus_info s media direction (Int.ofNat i) with
    | error e =>
      simp only [activateBusesLoop, hbi] at hok
      exact Except.noConfusion hok
    | ok info =>
      have hinfo := bus_info_ok_inv s media direction (Int.ofNat i) info hbi
      simp only [activateBusesLoop, hbi, activate_bus_eq] at hok ⊢
      by_cases hrc : s.component_activate_bus media.to_raw direction.to_raw
          (Int.ofNat i)
          (if decide (0 < host_channels ∧ 0 < info.channel_count) then 1 else 0) = 0
      · simp only [if_pos hrc] at hok ⊢
        rw [ih (i + 1) hok]
        simp only [List.singleton_append, expectedActivateCall, ← hinfo]
        simp
      · simp only [if_neg hrc] at hok
        exact Except.noConfusion hok

/-- Folding a decidable-proposition test into a propositional `if` on
integers (the loop passes `decide should_activate` as the Bool state). -/
theorem decide_ite_int (P : Prop) [Decidable P] :
    (if decide P = true then (1 : Int) else 0) = if P then 1 else 0 := by
  by_cases h : P <;> simp [h]

/-- One loop step at a bus whose two dispatch calls both succeed: the
expected activation call is recorded and the loop continues at the next
index. -/
theorem activateBusesLoop_step_ok (s : Sys) (media : MediaType)
    (direction : BusDirection) (host_channels : Int) (i fuel : Nat)
    (h : busStepOk s media direction host_channels i) :
    activateBusesLoop s media direction host_channels i (fuel + 1) =
      ((activateBusesLoop s media direction host_channels (i + 1) fuel).1,
       expectedActivateCall s media direction host_channels i ::
         (activateBusesLoop s media direction host_channels (i + 1) fuel).2) := by
  obtain ⟨hbi0, hact0⟩ := h
  have hbi : AudioProcessor.bus_info s media direction (Int.ofNat i) =
      .ok (BusInfo.from_raw (s.component_get_bus_info media.to_raw
        direction.to_raw (Int.ofNat i)).2) := by
    unfold AudioProcessor.bus_info
    rw [if_neg (fun hne => hne hbi0)]
  have hact0' : s.component_activate_bus media.to_raw direction.to_raw
      (Int.ofNat i)
      (if 0 < host_channels ∧ 0 < (BusInfo.from_raw
          (s.component_get_bus_info media.to_raw direction.to_raw
            (Int.ofNat i)).2).channel_count
       then 1 else 0) = 0 := hact0
  simp only [activateBusesLoop, hbi, activate_bus_eq, decide_ite_int, hact0',
    expectedActivateCall]
  simp

/-- One loop step at a bus where a dispatch call fails: the loop stops
with the error carrying that call's raw status, recording the activation
call only when it was the activate call (not the bus-info query) that
failed. -/
theorem activateBusesLoop_step_fail (s : Sys) (media : MediaType)
    (direction : BusDirection) (host_channels : Int) (i fuel : Nat)
    (h : ¬ busStepOk s media direction host_channels i) :
    activateBusesLoop s media direction host_channels i (fuel + 1) =
      (.error (firstBusFailureError s media direction host_channels i),
       if busInfoStatus s media direction i = 0
       then [expectedActivateCall s media direction host_channels i] else []) := by
  by_cases hbi0 : busInfoStatus s media direction i = 0
  · have hact : ¬ activateStatus s media direction host_channels i = 0 :=
      fun hc => h ⟨hbi0, hc⟩
    have hbi : AudioProcessor.bus_info s media direction (Int.ofNat i) =
        .ok (BusInfo.from_raw (s.component_get_bus_info media.to_raw
          direction.to_raw (Int.ofNat i)).2) := by
      unfold AudioProcessor.bus_info
      rw [if_neg (fun hne => hne hbi0)]
    have hact' : ¬ s.component_activate_bus media.to_raw direction.to_raw
        (Int.ofNat i)
        (if 0 < host_channels ∧ 0 < (BusInfo.from_raw
            (s.component_get_bus_info media.to_raw direction.to_raw
              (Int.ofNat i)).2).channel_count
         then 1 else 0) = 0 := hact
    rw [if_pos hbi0]
    unfold firstBusFailureError
    rw [if_neg (not_not_intro hbi0)]
    simp only [activateBusesLoop, hbi, activate_bus_eq, decide_ite_int,
      if_neg hact', expectedActivateCall, activateStatus]
  · have hraw : (s.component_get_bus_info media.to_raw direction.to_raw
        (Int.ofNat i)).1 ≠ 0 := hbi0
    have hbi : AudioProcessor.bus_info s media direction (Int.ofNat i) =
        .error (.getBusInfoFailed (busInfoStatus s media direction i)) := by
      simp only [AudioProcessor.bus_info]
      rw [if_pos hraw]
      rfl
    rw [if_neg hbi0]
    unfold firstBusFailureError
    rw [if_pos hbi0]
    simp only [activateBusesLoop, hbi]

/-- If both per-bus dispatch calls succeed at every index in the loop's
range, the loop succeeds. -/
theorem activateBusesLoop_all_ok (s : Sys) (media : MediaType)
    (direction : BusDirection) (host_channels : Int) :
    ∀ fuel i,
      (∀ k, i ≤ k → k < i + fuel → busStepOk s media direction host_channels k) →
      (activateBusesLoop s media direction host_channels i fuel).1 = .ok () := by
  intro fuel
  induction fuel with
  | zero => intro i _; rfl
  | succ n ih =>
    intro i hall
    rw [activateBusesLoop_step_ok s media direction host_channels i n
      (hall i le_rfl (by omega))]
    exact ih (i + 1) (fun k hk1 hk2 => hall k (by omega) (by omega))

/-- If every bus below `j` passes both dispatch calls and bus `j` (inside
the loop's range) fails one of them, the loop fails with the error
carrying that call's raw status, and every activation call it made
targets an index at most `j` — the remaining buses are never touched. -/
theorem activateBusesLoop_first_failure (s : Sys) (media : MediaType)
    (direction : BusDirection) (host_channels : Int) :
    ∀ fuel i j, i ≤ j → j < i + fuel →
      (∀ k, i ≤ k → k < j → busStepOk s media direction host_channels k) →
      ¬ busStepOk s media direction host_channels j →
      (activateBusesLoop s media direction host_channels i fuel).1 =
        .error (firstBusFailureError s media direction host_channels j) ∧
      (∀ c ∈ (activateBusesLoop s media direction host_channels i fuel).2,
        ∃ k stt, k ≤ j ∧
          c = HostCall.activateBus media.to_raw direction.to_raw
            (Int.ofNat k) stt) := by
  intro fuel
  induction fuel with
  | zero => intro i j hij hlt _ _; omega
  | succ n ih =>
    intro i j hij hlt hprev hfail
    by_cases hij' : i = j
    · subst hij'
      rw [activateBusesLoop_step_fail s media direction host_channels i n hfail]
      refine ⟨rfl, ?_⟩
      intro c hc
      by_cases hbz : busInfoStatus s media direction i = 0
      · rw [if_pos hbz] at hc
        rw [List.mem_singleton] at hc
        exact ⟨i, _, le_rfl, by rw [hc]; rfl⟩
      · rw [if_neg hbz] at hc
        exact absurd hc (List.not_mem_nil c)
    · have hik : i < j := lt_of_le_of_ne hij hij'
      rw [activateBusesLoop_step_ok s media direction host_channels i n
        (hprev i le_rfl hik)]
      have hrest := ih (i + 1) j (by omega) (by omega)
        (fun k hk1 hk2 => hprev k (by omega) hk2) hfail
      refine ⟨hrest.1, ?_⟩
      intro c hc
      simp only [List.mem_cons] at hc
      cases hc with
      | inl hc => exact ⟨i, _, by omega, by rw [hc]; rfl⟩
      | inr hc => exact hrest.2 c hc

/-- One set-arrangements dispatch call is always recorded, whatever its
status. -/
theorem set_bus_arrangements_trace (s : Sys) (ins outs : List UInt64) :
    (AudioProcessor.set_bus_arrangements s ins outs).2 =
      [HostCall.setArrangements ins outs] := by
  by_cases h : s.audio_processor_set_bus_arrangements ins outs = 0 <;>
    simp [AudioProcessor.set_bus_arrangements, h]

/-- The re-apply step only ever issues set-arrangement calls. -/
theorem reapply_trace_only_setArrangements (s : Sys) :
    ∀ c ∈ (AudioProcessor.reapply_default_arrangements s).2,
      ∃ ins outs, c = HostCall.setArrangements ins outs := by
  intro c hc
  unfold AudioProcessor.reapply_default_arrangements at hc
  cases harr : AudioProcessor.get_bus_arrangements s with
  | error e =>
    rw [harr] at hc
    exact absurd hc (List.not_mem_nil c)
  | ok arrs =>
    simp only [harr] at hc
    by_cases hne : arrs.1.isEmpty = false ∨ arrs.2.isEmpty = false
    · rw [if_pos hne, set_bus_arrangements_trace] at hc
      rw [List.mem_singleton] at hc
      exact ⟨arrs.1, arrs.2, hc⟩
    · rw [if_neg hne] at hc
      exact absurd hc (List.not_mem_nil c)

/-! ### Claim theorems -/

/-- C1 (amended): for every factory whose reported class count is
non-negative, `LoadedFactory::classes` returns exactly the decoded
descriptors of the indices in `0..n` whose per-index class-info accessor
succeeds, in ascending index order.  The fixed-size name/category byte
fields are decoded lossily (a total conversion), so an entry whose name
bytes contain invalid encoding is still included — only an accessor
failure skips an entry, and neither kind of per-index problem aborts the
enumeration of the remaining entries. -/
theorem classes_lists_accessor_successes (s : Sys)
    (h : 0 ≤ s.factory_class_count) :
    LoadedFactory.classes s = .ok (classesSpec s) := by
  unfold LoadedFactory.classes classesSpec
  rw [if_neg (by omega)]
  rw [classesLoop_eq_filterMap s s.factory_class_count.toNat 0]
  rw [List.range_eq_range' s.factory_class_count.toNat]

/-- Witness for C1's amended theorem at the three-class factory. -/
theorem classes_lists_accessor_successes_witness :
    0 ≤ sysFactory3.factory_class_count ∧
    LoadedFactory.classes sysFactory3 = .ok (classesSpec sysFactory3) :=
  ⟨by decide, classes_lists_accessor_successes sysFactory3 (by decide)⟩

/-- C1 counterexample: over a factory exposing 3 classes where index 1's
name bytes are invalid UTF-8 (and every per-index accessor succeeds),
`classes` returns all three descriptors — class ids 0, 1 and 2 in order —
not "exactly classes 0 and 2": the invalid-name entry is not skipped. -/
theorem classes_does_not_skip_invalid_name :
    utf8IsValid (takeUntilNul classRec1.name) = false ∧
    (LoadedFactory.classes sysFactory3).toOption.map
        (fun l => l.map ClassInfo.cid) =
      some [List.replicate 16 0, List.replicate 16 1, List.replicate 16 2] := by
  constructor
  · decide
  · rfl

/-- C7: a negative reported class count fails the listing with an error
carrying the raw negative value (never coerced to zero), and a zero count
succeeds with an empty list. -/
theorem classes_count_error_and_empty (s : Sys) :
    (s.factory_class_count < 0 →
      LoadedFactory.classes s =
        .error (.classCountFailed s.factory_class_count)) ∧
    (s.factory_class_count = 0 → LoadedFactory.classes s = .ok []) := by
  constructor
  · intro h
    unfold LoadedFactory.classes
    rw [if_pos h]
  · intro h
    unfold LoadedFactory.classes
    rw [if_neg (by omega), h]
    rfl

/-- Witness for C7 at a count `-2` factory and at the empty factory. -/
theorem classes_count_error_and_empty_witness :
    LoadedFactory.classes sysCountNeg = .error (.classCountFailed (-2)) ∧
    LoadedFactory.classes sysNull = .ok [] :=
  ⟨(classes_count_error_and_empty sysCountNeg).1 (by decide),
   (classes_count_error_and_empty sysNull).2 rfl⟩

/-- C3: dropping an `AudioProcessor` attempts all six teardown calls —
disable processing, deactivate the processor, deactivate the component,
terminate the component, release both capability pointers — in exactly
that (reverse-activation) order, for every plugin behaviour: the trace
does not depend on any call's status, so no step's failure suppresses a
later step, and no failure is propagated (the function returns only the
trace, never an error). -/
theorem drop_attempts_full_teardown (s : Sys) :
    AudioProcessor.drop s =
      [.procSetProcessing 0, .procSetActive 0, .compSetActive 0,
       .compTerminate, .releaseProc, .releaseComp] := rfl

/-- C10: `create_audio_processor` fails (with the raw status in the
error) whenever the creation dispatch reports non-success or leaves
either returned pointer null; consequently every successful return hands
back a non-null processor and a non-null component handle. -/
theorem create_audio_processor_null_guard (s : Sys) (cid : List UInt8) :
    (∀ rc p c, s.factory_create_audio_processor cid = (rc, p, c) →
      rc ≠ 0 ∨ p = 0 ∨ c = 0 →
      LoadedFactory.create_audio_processor s cid = .error (.createFailed rc)) ∧
    (∀ ap, LoadedFactory.create_audio_processor s cid = .ok ap →
      ap.proc ≠ 0 ∧ ap.comp ≠ 0) := by
  constructor
  · intro rc p c hEq hBad
    simp only [LoadedFactory.create_audio_processor, hEq]
    rw [if_pos hBad]
  · intro ap hOk
    unfold LoadedFactory.create_audio_processor at hOk
    by_cases hBad : (s.factory_create_audio_processor cid).1 ≠ 0 ∨
        (s.factory_create_audio_processor cid).2.1 = 0 ∨
        (s.factory_create_audio_processor cid).2.2 = 0
    · rw [if_pos hBad] at hOk
      exact Except.noConfusion hOk
    · rw [if_neg hBad] at hOk
      push_neg at hBad
      obtain ⟨h1, h2, h3⟩ := hBad
      rw [← Except.ok.inj hOk]
      exact ⟨h2, h3⟩

/-- Witness for C10: a success status with a null processor pointer is
rejected; the benign plugin's creation yields non-null handles. -/
theorem create_audio_processor_null_guard_witness :
    LoadedFactory.create_audio_processor sysCreateNullProc [] =
      .error (.createFailed 0) ∧
    ({ proc := 1, comp := 2, active := false } : AudioProcessor).proc ≠ 0 ∧
    ({ proc := 1, comp := 2, active := false } : AudioProcessor).comp ≠ 0 :=
  ⟨(create_audio_processor_null_guard sysCreateNullProc []).1 0 0 2 rfl
      (Or.inr (Or.inl rfl)),
   (create_audio_processor_null_guard sysNull []).2
      { proc := 1, comp := 2, active := false } rfl⟩

/-- C2: with the processor active and every channel buffer holding at
least the requested frames (the state in which a process call is issued),
`process_f32` succeeds exactly when the process dispatch returns status 0,
any non-success status yields an error carrying the raw code, and the
host-side processor state is unchanged whatever the outcome. -/
theorem process_f32_status_iff (s : Sys) (st : AudioProcessor)
    (inputs outputs : List (List Float)) (nframes : Nat)
    (hact : st.active = true)
    (hin : ∀ ch ∈ inputs, nframes ≤ ch.length)
    (hout : ∀ ch ∈ outputs, nframes ≤ ch.length) :
    ((AudioProcessor.process_f32 s st inputs outputs nframes).1 = .ok () ↔
      s.audio_processor_process_f32 (Int.ofNat inputs.length)
        (Int.ofNat outputs.length) (Int.ofNat nframes) = 0) ∧
    (∀ rc, s.audio_processor_process_f32 (Int.ofNat inputs.length)
        (Int.ofNat outputs.length) (Int.ofNat nframes) = rc → rc ≠ 0 →
      (AudioProcessor.process_f32 s st inputs outputs nframes).1 =
        .error (.processFailed rc)) ∧
    (AudioProcessor.process_f32 s st inputs outputs nframes).2.1 = st := by
  have hin' : inputs.any (fun ch => decide (ch.length < nframes)) = false := by
    rw [List.any_eq_false]
    intro ch hch
    simp only [decide_eq_true_eq, Nat.not_lt]
    exact hin ch hch
  have hout' : outputs.any (fun ch => decide (ch.length < nframes)) = false := by
    rw [List.any_eq_false]
    intro ch hch
    simp only [decide_eq_true_eq, Nat.not_lt]
    exact hout ch hch
  have key : ∀ res : Except HostError Unit × AudioProcessor × List HostCall,
      (if s.audio_processor_process_f32 (Int.ofNat inputs.length)
          (Int.ofNat outputs.length) (Int.ofNat nframes) ≠ 0
       then (Except.error (HostError.processFailed
              (s.audio_processor_process_f32 (Int.ofNat inputs.length)
                (Int.ofNat outputs.length) (Int.ofNat nframes))), st,
             [HostCall.processF32 (Int.ofNat inputs.length)
               (Int.ofNat outputs.length) (Int.ofNat nframes)])
       else (Except.ok (), st,
             [HostCall.processF32 (Int.ofNat inputs.length)
               (Int.ofNat outputs.length) (Int.ofNat nframes)])) = res →
      AudioProcessor.process_f32 s st inputs outputs nframes = res := by
    intro res hres
    unfold AudioProcessor.process_f32
    rw [hact]
    rw [if_neg (by simp)]
    rw [hin', if_neg (by simp), hout', if_neg (by simp)]
    exact hres
  by_cases hrc : s.audio_processor_process_f32 (Int.ofNat inputs.length)
      (Int.ofNat outputs.length) (Int.ofNat nframes) = 0
  · have heq := key _ rfl
    rw [if_neg (not_not_intro hrc)] at heq
    rw [heq]
    exact ⟨iff_of_true rfl hrc, fun rc hrceq hrcne => absurd (hrceq ▸ hrc) hrcne, rfl⟩
  · have heq := key _ rfl
    rw [if_pos hrc] at heq
    rw [heq]
    refine ⟨iff_of_false (by simp) hrc, ?_, rfl⟩
    intro rc hrceq hrcne
    rw [hrceq]

/-- Witness for C2 with the benign plugin and no channels. -/
theorem process_f32_status_iff_witness :
    (AudioProcessor.process_f32 sysNull apActive [] [] 4).1 = .ok () ∧
    (AudioProcessor.process_f32 sysNull apActive [] [] 4).2.1 = apActive :=
  ⟨(process_f32_status_iff sysNull apActive [] [] 4 rfl
      (by intro ch hch; exact absurd hch (List.not_mem_nil ch))
      (by intro ch hch; exact absurd hch (List.not_mem_nil ch))).1.mpr rfl,
   (process_f32_status_iff sysNull apActive [] [] 4 rfl
      (by intro ch hch; exact absurd hch (List.not_mem_nil ch))
      (by intro ch hch; exact absurd hch (List.not_mem_nil ch))).2.2⟩

/-- C9: when the precondition fails — no fully successful
`set_active(true)` (the active flag is false), or some input or output
channel slice shorter than the requested frame count — `process_f32`
returns an error and its dispatch trace is empty: the plugin's process
entry point is never invoked, so every buffer that does cross the
boundary holds at least the requested frames. -/
theorem process_f32_precondition_guard (s : Sys) (st : AudioProcessor)
    (inputs outputs : List (List Float)) (nframes : Nat)
    (hbad : st.active = false ∨ (∃ ch ∈ inputs, ch.length < nframes) ∨
      (∃ ch ∈ outputs, ch.length < nframes)) :
    (∃ e, (AudioProcessor.process_f32 s st inputs outputs nframes).1 = .error e) ∧
    (AudioProcessor.process_f32 s st inputs outputs nframes).2.2 = [] := by
  by_cases hact : st.active = false
  · constructor
    · exact ⟨.notActive, by simp [AudioProcessor.process_f32, hact]⟩
    · simp [AudioProcessor.process_f32, hact]
  · by_cases hin : inputs.any (fun ch => decide (ch.length < nframes)) = true
    · constructor
      · exact ⟨.inputBufferTooSmall, by simp [AudioProcessor.process_f32, hact, hin]⟩
      · simp [AudioProcessor.process_f32, hact, hin]
    · by_cases hout : outputs.any (fun ch => decide (ch.length < nframes)) = true
      · constructor
        · exact ⟨.outputBufferTooSmall,
            by simp [AudioProcessor.process_f32, hact, hin, hout]⟩
        · simp [AudioProcessor.process_f32, hact, hin, hout]
      · exfalso
        cases hbad with
        | inl h => exact hact h
        | inr h =>
          cases h with
          | inl h =>
            obtain ⟨ch, hch, hlen⟩ := h
            exact hin (List.any_eq_true.mpr ⟨ch, hch, by simpa using hlen⟩)
          | inr h =>
            obtain ⟨ch, hch, hlen⟩ := h
            exact hout (List.any_eq_true.mpr ⟨ch, hch, by simpa using hlen⟩)

/-- Witness for C9 at an inactive processor. -/
theorem process_f32_precondition_guard_witness :
    (∃ e, (AudioProcessor.process_f32 sysNull apIdle [] [] 4).1 = .error e) ∧
    (AudioProcessor.process_f32 sysNull apIdle [] [] 4).2.2 = [] :=
  process_f32_precondition_guard sysNull apIdle [] [] 4 (Or.inl rfl)

/-- A successful bus-count query returns the raw dispatch count. -/
theorem bus_count_ok_inv (s : Sys) (media : MediaType) (direction : BusDirection)
    (count : Int) (h : AudioProcessor.bus_count s media direction = .ok count) :
    count = s.component_get_bus_count media.to_raw direction.to_raw := by
  unfold AudioProcessor.bus_count at h
  by_cases hneg : s.component_get_bus_count media.to_raw direction.to_raw < 0
  · rw [if_pos hneg] at h
    exact Except.noConfusion h
  · rw [if_neg hneg] at h
    exact (Except.ok.inj h).symm

/-- C4: when the default activation routine completes successfully, its
trace is exactly one activation call per reported audio bus (inputs then
outputs, ascending indices), and a bus is activated (state 1) if and only
if the host's channel budget for its direction and the bus's own channel
count are both positive; in particular with a zero host output-channel
budget every output bus receives a deactivation (state 0) call. -/
theorem activate_default_buses_iff_budget (s : Sys) (in_ch out_ch : Int)
    (hok : (AudioProcessor.activate_default_audio_buses s in_ch out_ch).1 = .ok ()) :
    (AudioProcessor.activate_default_audio_buses s in_ch out_ch).2 =
      expectedActivateTrace s in_ch out_ch ∧
    (out_ch = 0 → ∀ idx stt,
      HostCall.activateBus MEDIA_TYPE_AUDIO BUS_DIRECTION_OUTPUT idx stt ∈
        (AudioProcessor.activate_default_audio_buses s in_ch out_ch).2 →
      stt = 0) := by
  cases hcIn : AudioProcessor.bus_count s .audio .input with
  | error e =>
    simp only [AudioProcessor.activate_default_audio_buses, hcIn] at hok
    exact Except.noConfusion hok
  | ok cIn =>
    cases hrIn : (activateBusesLoop s .audio .input in_ch 0 cIn.toNat).1 with
    | error e =>
      simp only [AudioProcessor.activate_default_audio_buses, hcIn, hrIn] at hok
      exact Except.noConfusion hok
    | ok u =>
      cases hcOut : AudioProcessor.bus_count s .audio .output with
      | error e =>
        simp only [AudioProcessor.activate_default_audio_buses, hcIn, hrIn,
          hcOut] at hok
        exact Except.noConfusion hok
      | ok cOut =>
        have htr : (AudioProcessor.activate_default_audio_buses s in_ch out_ch).2 =
            (activateBusesLoop s .audio .input in_ch 0 cIn.toNat).2 ++
            (activateBusesLoop s .audio .output out_ch 0 cOut.toNat).2 := by
          simp only [AudioProcessor.activate_default_audio_buses, hcIn, hrIn, hcOut]
        have hrOut : (activateBusesLoop s .audio .output out_ch 0 cOut.toNat).1 =
            .ok () := by
          simp only [AudioProcessor.activate_default_audio_buses, hcIn, hrIn,
            hcOut] at hok
          exact hok
        have hInTr := activateBusesLoop_ok_trace s .audio .input in_ch cIn.toNat 0
          (by rw [hrIn])
        have hOutTr := activateBusesLoop_ok_trace s .audio .output out_ch cOut.toNat 0
          hrOut
        have hcIn' := bus_count_ok_inv s .audio .input cIn hcIn
        have hcOut' := bus_count_ok_inv s .audio .output cOut hcOut
        have hmain : (AudioProcessor.activate_default_audio_buses s in_ch out_ch).2 =
            expectedActivateTrace s in_ch out_ch := by
          rw [htr, hInTr, hOutTr, hcIn', hcOut']
          unfold expectedActivateTrace
          rw [List.range_eq_range', List.range_eq_range']
          simp only [MediaType.to_raw, BusDirection.to_raw]
        refine ⟨hmain, ?_⟩
        intro hz idx stt hmem
        rw [hmain] at hmem
        unfold expectedActivateTrace at hmem
        rw [List.mem_append] at hmem
        cases hmem with
        | inl hmem =>
          rw [List.mem_map] at hmem
          obtain ⟨k, _, hk⟩ := hmem
          exfalso
          simp only [expectedActivateCall, MediaType.to_raw, BusDirection.to_raw,
            HostCall.activateBus.injEq, MEDIA_TYPE_AUDIO, BUS_DIRECTION_INPUT,
            BUS_DIRECTION_OUTPUT] at hk
          omega
        | inr hmem =>
          rw [List.mem_map] at hmem
          obtain ⟨k, _, hk⟩ := hmem
          simp only [expectedActivateCall, MediaType.to_raw, BusDirection.to_raw,
            HostCall.activateBus.injEq, MEDIA_TYPE_AUDIO, BUS_DIRECTION_OUTPUT] at hk
          rw [← hk.2.2.2, hz]
          simp

/-- Witness for C4 at an instance with one two-channel input bus and two
output buses (two channels and zero channels), with input budget 2 and
output budget 0. -/
theorem activate_default_buses_iff_budget_witness :
    (AudioProcessor.activate_default_audio_buses sysBuses 2 0).1 = .ok () ∧
    (AudioProcessor.activate_default_audio_buses sysBuses 2 0).2 =
      expectedActivateTrace sysBuses 2 0 ∧
    (∀ idx stt, HostCall.activateBus MEDIA_TYPE_AUDIO BUS_DIRECTION_OUTPUT idx stt ∈
        (AudioProcessor.activate_default_audio_buses sysBuses 2 0).2 → stt = 0) :=
  ⟨rfl, (activate_default_buses_iff_budget sysBuses 2 0 rfl).1,
   fun idx stt h =>
     (activate_default_buses_iff_budget sysBuses 2 0 rfl).2 rfl idx stt h⟩

/-- C5 (amended): during the activateBuses step of `setup`, a per-bus
failure — a non-success status from the bus-info query or from the
per-bus activate call, at any index `j`, in either direction — is
escalated, not logged: even with the setup dispatch and the arrangement
re-apply succeeding, `setup` as a whole fails with the error carrying
that call's raw status, and the remaining buses are not processed (the
only activation calls issued in the failing direction target indices at
most `j`, none in the output direction when an input bus failed). -/
theorem setup_escalates_per_bus_failure (s : Sys) (sr : Float)
    (max_block in_ch out_ch : Int) (j : Nat)
    (hsetup : s.audio_processor_setup sr max_block in_ch out_ch = 0)
    (harr : (AudioProcessor.reapply_default_arrangements s).1 = .ok ()) :
    ((Int.ofNat j <
        s.component_get_bus_count MEDIA_TYPE_AUDIO BUS_DIRECTION_INPUT →
      (∀ k, k < j → busStepOk s .audio .input in_ch k) →
      ¬ busStepOk s .audio .input in_ch j →
      (AudioProcessor.setup s sr max_block in_ch out_ch).1 =
        .error (firstBusFailureError s .audio .input in_ch j) ∧
      (∀ m d idx stt, HostCall.activateBus m d idx stt ∈
          (AudioProcessor.setup s sr max_block in_ch out_ch).2 →
        d = BUS_DIRECTION_INPUT ∧ ∃ k, idx = Int.ofNat k ∧ k ≤ j)) ∧
     (0 ≤ s.component_get_bus_count MEDIA_TYPE_AUDIO BUS_DIRECTION_INPUT →
      (∀ k, k < (s.component_get_bus_count MEDIA_TYPE_AUDIO
          BUS_DIRECTION_INPUT).toNat →
        busStepOk s .audio .input in_ch k) →
      Int.ofNat j <
        s.component_get_bus_count MEDIA_TYPE_AUDIO BUS_DIRECTION_OUTPUT →
      (∀ k, k < j → busStepOk s .audio .output out_ch k) →
      ¬ busStepOk s .audio .output out_ch j →
      (AudioProcessor.setup s sr max_block in_ch out_ch).1 =
        .error (firstBusFailureError s .audio .output out_ch j) ∧
      (∀ m d idx stt, HostCall.activateBus m d idx stt ∈
          (AudioProcessor.setup s sr max_block in_ch out_ch).2 →
        d = BUS_DIRECTION_INPUT ∨
          (d = BUS_DIRECTION_OUTPUT ∧ ∃ k, idx = Int.ofNat k ∧ k ≤ j)))) := by
  have hre : AudioProcessor.reapply_default_arrangements s =
      (.ok (), (AudioProcessor.reapply_default_arrangements s).2) := by
    rw [← harr]
  have hsu : AudioProcessor.setup s sr max_block in_ch out_ch =
      ((AudioProcessor.activate_default_audio_buses s in_ch out_ch).1,
       (AudioProcessor.reapply_default_arrangements s).2 ++
       (AudioProcessor.activate_default_audio_buses s in_ch out_ch).2) := by
    unfold AudioProcessor.setup
    rw [hsetup]
    rw [if_neg (by omega)]
    rw [hre]
  constructor
  · -- failure on an input bus
    intro hcount hprev hfail
    have hcount' : (j : Int) <
        s.component_get_bus_count MEDIA_TYPE_AUDIO BUS_DIRECTION_INPUT := hcount
    have hbc : AudioProcessor.bus_count s .audio .input =
        .ok (s.component_get_bus_count MEDIA_TYPE_AUDIO BUS_DIRECTION_INPUT) := by
      unfold AudioProcessor.bus_count
      simp only [MediaType.to_raw, BusDirection.to_raw]
      rw [if_neg (by omega)]
    obtain ⟨herr, htrace⟩ := activateBusesLoop_first_failure s .audio .input in_ch
      (s.component_get_bus_count MEDIA_TYPE_AUDIO BUS_DIRECTION_INPUT).toNat 0 j
      (Nat.zero_le j) (by omega) (fun k _ hk => hprev k hk) hfail
    have had1 : (AudioProcessor.activate_default_audio_buses s in_ch out_ch).1 =
        .error (firstBusFailureError s .audio .input in_ch j) := by
      simp only [AudioProcessor.activate_default_audio_buses, hbc, herr]
    have had2 : (AudioProcessor.activate_default_audio_buses s in_ch out_ch).2 =
        (activateBusesLoop s .audio .input in_ch 0
          (s.component_get_bus_count MEDIA_TYPE_AUDIO
            BUS_DIRECTION_INPUT).toNat).2 := by
      simp only [AudioProcessor.activate_default_audio_buses, hbc, herr]
    refine ⟨by rw [hsu]; exact had1, ?_⟩
    intro m d idx stt hmem
    rw [hsu] at hmem
    simp only [List.mem_append] at hmem
    cases hmem with
    | inl hmem =>
      obtain ⟨ins, outs, hcall⟩ := reapply_trace_only_setArrangements s _ hmem
      exact HostCall.noConfusion hcall
    | inr hmem =>
      rw [had2] at hmem
      obtain ⟨k, stt', hk, hcall⟩ := htrace _ hmem
      simp only [MediaType.to_raw, BusDirection.to_raw] at hcall
      injection hcall with hm hd hidx hstt
      exact ⟨hd, k, hidx, hk⟩
  · -- failure on an output bus, the input side fully succeeding
    intro hinpos hallin hcount hprev hfail
    have hbcIn : AudioProcessor.bus_count s .audio .input =
        .ok (s.component_get_bus_count MEDIA_TYPE_AUDIO BUS_DIRECTION_INPUT) := by
      unfold AudioProcessor.bus_count
      simp only [MediaType.to_raw, BusDirection.to_raw]
      rw [if_neg (by omega)]
    have hcount' : (j : Int) <
        s.component_get_bus_count MEDIA_TYPE_AUDIO BUS_DIRECTION_OUTPUT := hcount
    have hbcOut : AudioProcessor.bus_count s .audio .output =
        .ok (s.component_get_bus_count MEDIA_TYPE_AUDIO BUS_DIRECTION_OUTPUT) := by
      unfold AudioProcessor.bus_count
      simp only [MediaType.to_raw, BusDirection.to_raw]
      rw [if_neg (by omega)]
    have hInOk : (activateBusesLoop s .audio .input in_ch 0
        (s.component_get_bus_count MEDIA_TYPE_AUDIO
          BUS_DIRECTION_INPUT).toNat).1 = .ok () :=
      activateBusesLoop_all_ok s .audio .input in_ch _ 0
        (fun k _ hk2 => hallin k (by omega))
    have hInTr := activateBusesLoop_ok_trace s .audio .input in_ch
      (s.component_get_bus_count MEDIA_TYPE_AUDIO BUS_DIRECTION_INPUT).toNat 0
      hInOk
    obtain ⟨herrO, htraceO⟩ := activateBusesLoop_first_failure s .audio .output
      out_ch
      (s.component_get_bus_count MEDIA_TYPE_AUDIO BUS_DIRECTION_OUTPUT).toNat 0 j
      (Nat.zero_le j) (by omega) (fun k _ hk => hprev k hk) hfail
    have had1 : (AudioProcessor.activate_default_audio_buses s in_ch out_ch).1 =
        .error (firstBusFailureError s .audio .output out_ch j) := by
      simp only [AudioProcessor.activate_default_audio_buses, hbcIn, hInOk,
        hbcOut, herrO]
    have had2 : (AudioProcessor.activate_default_audio_buses s in_ch out_ch).2 =
        (activateBusesLoop s .audio .input in_ch 0
          (s.component_get_bus_count MEDIA_TYPE_AUDIO
            BUS_DIRECTION_INPUT).toNat).2 ++
        (activateBusesLoop s .audio .output out_ch 0
          (s.component_get_bus_count MEDIA_TYPE_AUDIO
            BUS_DIRECTION_OUTPUT).toNat).2 := by
      simp only [AudioProcessor.activate_default_audio_buses, hbcIn, hInOk,
        hbcOut, herrO]
    refine ⟨by rw [hsu]; exact had1, ?_⟩
    intro m d idx stt hmem
    rw [hsu] at hmem
    simp only [List.mem_append] at hmem
    cases hmem with
    | inl hmem =>
      obtain ⟨ins, outs, hcall⟩ := reapply_trace_only_setArrangements s _ hmem
      exact HostCall.noConfusion hcall
    | inr hmem =>
      rw [had2] at hmem
      rw [List.mem_append] at hmem
      cases hmem with
      | inl hmem =>
        rw [hInTr] at hmem
        rw [List.mem_map] at hmem
        obtain ⟨k, _, hk⟩ := hmem
        left
        injection hk with hm hd hidx hstt
        exact hd.symm
      | inr hmem =>
        obtain ⟨k, stt', hk, hcall⟩ := htraceO _ hmem
        simp only [MediaType.to_raw, BusDirection.to_raw] at hcall
        injection hcall with hm hd hidx hstt
        exact Or.inr ⟨hd, k, hidx, hk⟩

/-- Witness for C5's amended theorem: an instance whose first input
bus-info query fails with `-3`, and an instance with no input buses whose
first output activate call fails with `-4`. -/
theorem setup_escalates_per_bus_failure_witness :
    ((AudioProcessor.setup sysBusInfoFail 48000.0 256 2 2).1 =
        .error (firstBusFailureError sysBusInfoFail .audio .input 2 0) ∧
      (∀ m d idx stt, HostCall.activateBus m d idx stt ∈
          (AudioProcessor.setup sysBusInfoFail 48000.0 256 2 2).2 →
        d = BUS_DIRECTION_INPUT ∧ ∃ k, idx = Int.ofNat k ∧ k ≤ 0)) ∧
    ((AudioProcessor.setup sysActivateFail 48000.0 256 2 2).1 =
        .error (firstBusFailureError sysActivateFail .audio .output 2 0) ∧
      (∀ m d idx stt, HostCall.activateBus m d idx stt ∈
          (AudioProcessor.setup sysActivateFail 48000.0 256 2 2).2 →
        d = BUS_DIRECTION_INPUT ∨
          (d = BUS_DIRECTION_OUTPUT ∧ ∃ k, idx = Int.ofNat k ∧ k ≤ 0))) :=
  ⟨(setup_escalates_per_bus_failure sysBusInfoFail 48000.0 256 2 2 0 rfl rfl).1
      (by decide) (fun k hk => absurd hk (Nat.not_lt_zero k)) (by decide),
   (setup_escalates_per_bus_failure sysActivateFail 48000.0 256 2 2 0 rfl rfl).2
      (by decide) (fun k hk => absurd hk (Nat.not_lt_zero k)) (by decide)
      (fun k hk => absurd hk (Nat.not_lt_zero k)) (by decide)⟩

/-- C5 counterexample: on an instance whose bus-info query for input bus 0
fails with status `-3`, the configure operation does not stay non-fatal:
`setup` as a whole fails with an error carrying that raw status, instead
of succeeding with the failure merely logged. -/
theorem setup_per_bus_failure_is_fatal :
    (sysBusInfoFail.component_get_bus_info MEDIA_TYPE_AUDIO BUS_DIRECTION_INPUT
      0).1 = -3 ∧
    (AudioProcessor.setup sysBusInfoFail 48000.0 256 2 2).1 =
      .error (.getBusInfoFailed (-3)) :=
  ⟨rfl, rfl⟩

/-- C6 (amended): the realtime 32-bit callback driver always passes
silence-flags value 0 — every channel marked "not silent" under the
set-bit-means-silent convention — whatever the channel count, and issues
at most one process dispatch per block, exactly one when the callback's
frame count fits the maximum block size.  The dispatched record carries
no input bus and one output bus of the configured channel count. -/
theorem callback32_flags_zero_single_call (st : CallbackState32)
    (d : IAudioProcessorDispatch) (bufferLen : Nat)
    (_hch : 0 < st.channels) :
    (∀ c ∈ (CallbackState32.process st d bufferLen).2,
      c.out_silence_flags = 0 ∧ c.num_inputs = 0 ∧ c.num_outputs = 1 ∧
      c.out_num_channels = Int.ofNat st.channels) ∧
    (CallbackState32.process st d bufferLen).2.length ≤ 1 ∧
    (bufferLen / st.channels ≤ st.max_frames →
      (CallbackState32.process st d bufferLen).2.length = 1) := by
  simp only [CallbackState32.process]
  by_cases hfr : bufferLen / st.channels > st.max_frames
  · rw [if_pos hfr]
    exact ⟨fun c hc => absurd hc (List.not_mem_nil c), by simp,
      fun hle => absurd hfr (by omega)⟩
  · rw [if_neg hfr]
    refine ⟨?_, ?_, ?_⟩
    · intro c hc
      revert hc
      split <;>
        (intro hc; rw [List.mem_singleton] at hc; subst hc
         exact ⟨rfl, rfl, rfl, rfl⟩)
    · split <;> simp
    · intro _
      split <;> simp

/-- Witness for C6's amended theorem at the three-channel callback. -/
theorem callback32_flags_zero_single_call_witness :
    (∀ c ∈ (CallbackState32.process cb3 dispatchOk 12).2,
      c.out_silence_flags = 0 ∧ c.num_inputs = 0 ∧ c.num_outputs = 1 ∧
      c.out_num_channels = Int.ofNat cb3.channels) ∧
    (CallbackState32.process cb3 dispatchOk 12).2.length ≤ 1 ∧
    (12 / cb3.channels ≤ cb3.max_frames →
      (CallbackState32.process cb3 dispatchOk 12).2.length = 1) :=
  callback32_flags_zero_single_call cb3 dispatchOk 12 (by decide)

/-- C6 counterexample: driving the three-channel callback for one block
passes silence-flags value 0 to the plugin, not the value 7 that "bits
0–2 set and no others" would require. -/
theorem callback32_flags_not_bits_set :
    (CallbackState32.process cb3 dispatchOk 12).2.map
        ProcessData32Call.out_silence_flags = [0] ∧
    ¬ ((0 : UInt64) = 7) :=
  ⟨rfl, by decide⟩

/-- C8: the arrangement-setting operation adds no host-side failure or
work for an empty list on either side — it succeeds exactly when the
single dispatch call reports success, for empty and non-empty lists alike
— and the default re-apply, when both current arrangement lists are
empty (no audio buses), makes no set call at all and returns success. -/
theorem arrangements_empty_policy (s : Sys) :
    (∀ ins outs,
      (AudioProcessor.set_bus_arrangements s ins outs).1 = .ok () ↔
        s.audio_processor_set_bus_arrangements ins outs = 0) ∧
    (s.component_get_bus_count MEDIA_TYPE_AUDIO BUS_DIRECTION_INPUT = 0 →
     s.component_get_bus_count MEDIA_TYPE_AUDIO BUS_DIRECTION_OUTPUT = 0 →
     s.audio_processor_get_bus_arrangements_rc 0 0 = 0 →
      AudioProcessor.reapply_default_arrangements s = (.ok (), [])) := by
  constructor
  · intro ins outs
    by_cases h : s.audio_processor_set_bus_arrangements ins outs = 0 <;>
      simp [AudioProcessor.set_bus_arrangements, h]
  · intro h1 h2 h3
    have hga : AudioProcessor.get_bus_arrangements s = .ok ([], []) := by
      simp [AudioProcessor.get_bus_arrangements, AudioProcessor.bus_count,
        MediaType.to_raw, BusDirection.to_raw, h1, h2, h3]
    simp [AudioProcessor.reapply_default_arrangements, hga]

/-- Witness for C8 at the bus-less benign plugin. -/
theorem arrangements_empty_policy_witness :
    ((AudioProcessor.set_bus_arrangements sysNull [] []).1 = .ok () ↔
      sysNull.audio_processor_set_bus_arrangements [] [] = 0) ∧
    AudioProcessor.reapply_default_arrangements sysNull = (.ok (), []) :=
  ⟨(arrangements_empty_policy sysNull).1 [] [],
   (arrangements_empty_policy sysNull).2 rfl rfl rfl⟩
